import Mathlib

/-!
Formal model of the Primeval Arcana party XP calculator.

The repository contains several implementations of the same calculator.
The richest one, and the only one implementing the remainder-distribution
policy, is the React page in `src/unnamed/part_001` (an alternate copy of
`src/client/src/pages/Home.tsx`); it is modelled in the `HomePage`
namespace below, function for function.  The Angular service in
`src/unnamed/part_002` (`XpCalculatorService`) is modelled in the
`XpCalculatorService` namespace.

JavaScript numbers are modelled as exact rationals (ℚ); the form fields
(hit dice, modifier, count) are integers, because every numeric input in
the React page is parsed with `parseInt` and the data model declares them
integral.  `Math.floor` is `Int.floor`, array `reduce` is `List.foldl`,
and in-place array update is modelled by rebuilding the list.
-/

namespace HomePage

/-- A character row of the validated form (`characterSchema` in part_001):
optional display name, hit dice, modifier. -/
structure CharacterFormValue where
  name : String
  hitDice : ℤ
  modifier : ℤ
deriving Repr, DecidableEq

/-- A monster row of the validated form (`monsterSchema` in part_001). -/
structure MonsterFormValue where
  name : String
  hitDice : ℤ
  modifier : ℤ
  count : ℤ
deriving Repr, DecidableEq

/-- The processed `Character` record built by `onSubmit` (part_001 lines 16-22). -/
structure Character where
  id : ℕ
  name : String
  hitDice : ℤ
  modifier : ℤ
  effectiveHitDice : ℚ
deriving Repr, DecidableEq

/-- The processed `Monster` record built by `onSubmit` (part_001 lines 24-31). -/
structure Monster where
  id : ℕ
  name : String
  hitDice : ℤ
  modifier : ℤ
  count : ℤ
  effectiveHitDice : ℚ
deriving Repr, DecidableEq

/-- One monster group's contribution to one character
(`monsterContributions` entries in part_001's `onSubmit`). -/
structure MonsterContribution where
  monsterId : ℕ
  monsterName : String
  baseXp : ℚ
  adjustmentFactor : ℚ
  adjustedXp : ℚ
deriving Repr, DecidableEq

/-- The per-character breakdown (`characterXp` entries in part_001). -/
structure CharacterXp where
  characterId : ℕ
  effectiveHitDice : ℚ
  adjustmentFactor : ℚ
  adjustedXp : ℚ
  monsterContributions : List MonsterContribution
deriving Repr, DecidableEq

/-- `CalculationResult` (part_001 lines 33-53). -/
structure CalculationResult where
  totalPartyHitDice : ℚ
  totalMonsterHitDice : ℚ
  totalXp : ℚ
  xpPerCharacter : ℚ
  averagePartyLevel : ℚ
  adjustmentFactor : ℚ
  characterXp : List CharacterXp
deriving Repr, DecidableEq

/-- part_001 lines 83-85: `hitDice + modifier * 0.25`. -/
def calculateEffectiveHitDice (hitDice modifier : ℚ) : ℚ :=
  hitDice + modifier * (1 / 4)

/-- part_001 lines 87-91: total XP is 100 per effective monster hit die,
weighted by group count. -/
def calculateTotalXp (monsters : List Monster) : ℚ :=
  monsters.foldl (fun total monster =>
    total + monster.effectiveHitDice * (monster.count : ℚ) * 100) 0

/-- part_001 lines 93-98: full credit when the character's HD does not
exceed the monster's, otherwise the ratio `monsterHD / characterHD`. -/
def calculateAdjustmentFactor (characterHD monsterHD : ℚ) : ℚ :=
  if characterHD ≤ monsterHD then 1 else monsterHD / characterHD

/-- part_001 lines 152-162: build `Character` records (ids are 1-based,
an empty name falls back to `Character ${index+1}`). -/
def processCharacters (data : List CharacterFormValue) : List Character :=
  data.enum.map fun p =>
    { id := p.1 + 1
      name := if p.2.name = "" then "Character " ++ toString (p.1 + 1) else p.2.name
      hitDice := p.2.hitDice
      modifier := p.2.modifier
      effectiveHitDice := calculateEffectiveHitDice (p.2.hitDice : ℚ) (p.2.modifier : ℚ) }

/-- part_001 lines 164-175: build `Monster` records. -/
def processMonsters (data : List MonsterFormValue) : List Monster :=
  data.enum.map fun p =>
    { id := p.1 + 1
      name := if p.2.name = "" then "Monster " ++ toString (p.1 + 1) else p.2.name
      hitDice := p.2.hitDice
      modifier := p.2.modifier
      count := p.2.count
      effectiveHitDice := calculateEffectiveHitDice (p.2.hitDice : ℚ) (p.2.modifier : ℚ) }

/-- part_001 lines 203-224 (inner `map` of `onSubmit`): each monster group's
unadjusted per-character share and its adjusted contribution. -/
def characterMonsterContributions (numCharacters : ℕ) (monsters : List Monster)
    (char : Character) : List MonsterContribution :=
  monsters.map fun monster =>
    let monsterXpContribution :=
      monster.effectiveHitDice * (monster.count : ℚ) * 100 / (numCharacters : ℚ)
    let adjustmentFactor :=
      calculateAdjustmentFactor char.effectiveHitDice monster.effectiveHitDice
    let adjustedXpFromMonster := monsterXpContribution * adjustmentFactor
    { monsterId := monster.id
      monsterName := monster.name
      baseXp := monsterXpContribution
      adjustmentFactor := adjustmentFactor
      adjustedXp := adjustedXpFromMonster }

/-- part_001 lines 199-236: one character's entry of `characterXp`; the
character's adjusted XP is the floor of the summed contributions. -/
def characterXpEntry (numCharacters : ℕ) (monsters : List Monster)
    (xpPerCharacter : ℚ) (char : Character) : CharacterXp :=
  let monsterContributions := characterMonsterContributions numCharacters monsters char
  let totalAdjustedXp := monsterContributions.foldl (fun sum c => sum + c.adjustedXp) 0
  { characterId := char.id
    effectiveHitDice := char.effectiveHitDice
    adjustmentFactor := totalAdjustedXp / xpPerCharacter
    adjustedXp := ((⌊totalAdjustedXp⌋ : ℤ) : ℚ)
    monsterContributions := monsterContributions }

/-- Placeholder record used to model JavaScript's out-of-bounds array read;
every proved access stays in bounds. -/
def defaultCharacterXp : CharacterXp :=
  { characterId := 0, effectiveHitDice := 0, adjustmentFactor := 0,
    adjustedXp := 0, monsterContributions := [] }

/-- part_001 lines 239-243: `reduce` selecting the index of the character
with the lowest effective hit dice (first index wins ties). -/
def lowestLevelCharIndex (arr : List CharacterXp) : ℕ :=
  arr.enum.foldl
    (fun lowestIdx p =>
      if p.2.effectiveHitDice < (arr.getD lowestIdx defaultCharacterXp).effectiveHitDice
      then p.1 else lowestIdx)
    0

/-- part_001 lines 238-252: compute the rounding remainder and, when it is
positive, add it to the lowest-level character's entry. -/
def distributeRemainder (totalXp : ℚ) (characterXp : List CharacterXp) :
    List CharacterXp :=
  let lowestIdx := lowestLevelCharIndex characterXp
  let totalRoundedXp := characterXp.foldl (fun sum char => sum + char.adjustedXp) 0
  let remainder := totalXp - totalRoundedXp
  if 0 < remainder ∧ 0 < characterXp.length then
    characterXp.enum.map fun p =>
      if p.1 = lowestIdx then { p.2 with adjustedXp := p.2.adjustedXp + remainder }
      else p.2
  else characterXp

/-- part_001 lines 146-262: the whole `onSubmit` computation, producing the
`CalculationResult` passed to `setResult`. -/
def onSubmit (dataCharacters : List CharacterFormValue)
    (dataMonsters : List MonsterFormValue) : CalculationResult :=
  let newCharacters := processCharacters dataCharacters
  let newMonsters := processMonsters dataMonsters
  let totalPartyHitDice :=
    newCharacters.foldl (fun total char => total + char.effectiveHitDice) 0
  let averagePartyLevel := totalPartyHitDice / (newCharacters.length : ℚ)
  let totalMonsterCount :=
    newMonsters.foldl (fun total monster => total + (monster.count : ℚ)) 0
  let totalMonsterHitDice :=
    newMonsters.foldl (fun total monster =>
      total + monster.effectiveHitDice * (monster.count : ℚ)) 0
  let averageMonsterLevel :=
    if 0 < totalMonsterCount then totalMonsterHitDice / totalMonsterCount else 0
  let totalXp := calculateTotalXp newMonsters
  let xpPerCharacter := totalXp / (newCharacters.length : ℚ)
  let overallAdjustmentFactor :=
    calculateAdjustmentFactor averagePartyLevel averageMonsterLevel
  let characterXpBefore :=
    newCharacters.map (characterXpEntry newCharacters.length newMonsters xpPerCharacter)
  let characterXp := distributeRemainder totalXp characterXpBefore
  { totalPartyHitDice := totalPartyHitDice
    totalMonsterHitDice := totalMonsterHitDice
    totalXp := totalXp
    xpPerCharacter := xpPerCharacter
    averagePartyLevel := averagePartyLevel
    adjustmentFactor := overallAdjustmentFactor
    characterXp := characterXp }

/-- The `characterXp` list of `onSubmit` as it stands before the remainder
is distributed (part_001 line 199, the value of the `characterXp` constant
just before line 238). -/
def characterXpBase (dataCharacters : List CharacterFormValue)
    (dataMonsters : List MonsterFormValue) : List CharacterXp :=
  (processCharacters dataCharacters).map
    (characterXpEntry (processCharacters dataCharacters).length
      (processMonsters dataMonsters)
      (calculateTotalXp (processMonsters dataMonsters) /
        ((processCharacters dataCharacters).length : ℚ)))

/-- part_001 lines 245-247: `remainder = totalXp - totalRoundedXp`. -/
def onSubmitRemainder (dataCharacters : List CharacterFormValue)
    (dataMonsters : List MonsterFormValue) : ℚ :=
  calculateTotalXp (processMonsters dataMonsters) -
    (characterXpBase dataCharacters dataMonsters).foldl
      (fun sum char => sum + char.adjustedXp) 0

/-- part_001 lines 64-68 (`characterSchema`): per-character issues. -/
def characterSchemaIssues (c : CharacterFormValue) : List String :=
  if c.hitDice < 1 then ["Hit dice must be at least 1"] else []

/-- part_001 lines 70-75 (`monsterSchema`): per-monster issues. -/
def monsterSchemaIssues (m : MonsterFormValue) : List String :=
  (if m.hitDice < 1 then ["Hit dice must be at least 1"] else []) ++
    (if m.count < 1 then ["Count must be at least 1"] else [])

/-- part_001 lines 77-80 (`calculatorSchema`): the form is valid exactly
when this list of issues is empty. -/
def calculatorSchemaIssues (characters : List CharacterFormValue)
    (monsters : List MonsterFormValue) : List String :=
  (if characters.length < 1 then ["Add at least one character"] else []) ++
    (characters.map characterSchemaIssues).flatten ++
    (if monsters.length < 1 then ["Add at least one monster"] else []) ++
    (monsters.map monsterSchemaIssues).flatten

/-- `form.handleSubmit(onSubmit)` (part_001 line 473): react-hook-form runs
`onSubmit` only when the zod schema reports no issues; otherwise no result
is produced at all. -/
def handleSubmit (characters : List CharacterFormValue)
    (monsters : List MonsterFormValue) : Option CalculationResult :=
  if calculatorSchemaIssues characters monsters = [] then
    some (onSubmit characters monsters)
  else none

/-- `SavedCalculation` (part_001 lines 55-61); the `Date` is modelled as
its millisecond timestamp. -/
structure SavedCalculation where
  id : String
  date : ℕ
  characters : List Character
  monsters : List Monster
  result : CalculationResult
deriving Repr, DecidableEq

/-- part_001 lines 312-340 (`saveCalculation`): append the new record to the
stored list (`[...savedCalculations, newSavedCalculation]`). -/
def saveCalculation (savedCalculations : List SavedCalculation)
    (newSavedCalculation : SavedCalculation) : List SavedCalculation :=
  savedCalculations ++ [newSavedCalculation]

/-- The working state restored by `loadCalculation`: form values plus the
three `setX` calls. -/
structure LoadedState where
  formCharacters : List CharacterFormValue
  formMonsters : List MonsterFormValue
  characters : List Character
  monsters : List Monster
  result : CalculationResult
deriving Repr, DecidableEq

/-- part_001 lines 347-380 (`loadCalculation`): rebuild the form values from
the saved record and restore `characters`, `monsters` and `result` verbatim
from the snapshot — the result is copied, never recomputed. -/
def loadCalculation (savedCalc : SavedCalculation) : LoadedState :=
  { formCharacters := savedCalc.characters.map fun char =>
      { name := char.name, hitDice := char.hitDice, modifier := char.modifier }
    formMonsters := savedCalc.monsters.map fun monster =>
      { name := monster.name, hitDice := monster.hitDice,
        modifier := monster.modifier, count := monster.count }
    characters := savedCalc.characters
    monsters := savedCalc.monsters
    result := savedCalc.result }

end HomePage

namespace XpCalculatorService

/-- Angular `Character` interface (`src/client/src/app/models/character.model.ts`). -/
structure Character where
  id : ℕ
  hitDice : ℤ
  modifier : ℤ
  effectiveHitDice : ℚ
deriving Repr, DecidableEq

/-- Angular `Monster` interface (`src/client/src/app/models/monster.model.ts`). -/
structure Monster where
  id : ℕ
  hitDice : ℤ
  modifier : ℤ
  count : ℤ
  effectiveHitDice : ℚ
deriving Repr, DecidableEq

/-- Angular `CalculationResult` (aggregate part only; part_002). -/
structure CalculationResult where
  totalPartyHitDice : ℚ
  totalMonsterHitDice : ℚ
  totalXp : ℚ
  xpPerCharacter : ℚ
  averagePartyLevel : ℚ
  adjustmentFactor : ℚ
deriving Repr, DecidableEq

/-- part_002 line 13: `BASE_XP_PER_HD = 100`. -/
def BASE_XP_PER_HD : ℚ := 100

/-- part_002 line 16: `MODIFIER_FACTOR = 0.25`. -/
def MODIFIER_FACTOR : ℚ := 1 / 4

/-- part_002 lines 23-25. -/
def calculateEffectiveHitDice (hitDice modifier : ℚ) : ℚ :=
  hitDice + modifier * MODIFIER_FACTOR

/-- part_002 lines 31-43: stepped scale over the level difference. -/
def calculateAdjustmentFactor (partyLevel monsterLevel : ℚ) : ℚ :=
  let levelDiff := partyLevel - monsterLevel
  if levelDiff ≤ 0 then 1
  else if levelDiff = 1 then 8 / 10
  else if levelDiff = 2 then 6 / 10
  else if levelDiff = 3 then 4 / 10
  else if 4 ≤ levelDiff then 2 / 10
  else 1

/-- part_002 lines 48-102 (`calculateXp`): for an empty character or monster
list it returns an all-zero record; otherwise it aggregates, applying the
stepped adjustment factor to each monster group's XP and flooring the total. -/
def calculateXp (characters : List Character) (monsters : List Monster) :
    CalculationResult :=
  if characters.length = 0 ∨ monsters.length = 0 then
    { totalPartyHitDice := 0, totalMonsterHitDice := 0, totalXp := 0,
      xpPerCharacter := 0, averagePartyLevel := 0, adjustmentFactor := 0 }
  else
    let totalPartyHitDice := characters.foldl (fun sum char =>
      sum + calculateEffectiveHitDice (char.hitDice : ℚ) (char.modifier : ℚ)) 0
    let averagePartyLevel := totalPartyHitDice / (characters.length : ℚ)
    let totals := monsters.foldl (fun (acc : ℚ × ℚ) monster =>
      let effectiveHD := calculateEffectiveHitDice (monster.hitDice : ℚ) (monster.modifier : ℚ)
      let count : ℚ := if monster.count = 0 then 1 else (monster.count : ℚ)
      let adjustmentFactor := calculateAdjustmentFactor averagePartyLevel effectiveHD
      let monsterXp := BASE_XP_PER_HD * effectiveHD * count * adjustmentFactor
      (acc.1 + effectiveHD * count, acc.2 + monsterXp)) (0, 0)
    let totalMonsterHitDice := totals.1
    let totalMonsterXp := totals.2
    let adjustmentFactor :=
      if 0 < characters.length then totalMonsterXp / (BASE_XP_PER_HD * totalMonsterHitDice)
      else 1
    let xpPerCharacter :=
      if 0 < characters.length then ((⌊totalMonsterXp / (characters.length : ℚ)⌋ : ℤ) : ℚ)
      else 0
    { totalPartyHitDice := totalPartyHitDice
      totalMonsterHitDice := totalMonsterHitDice
      totalXp := ((⌊totalMonsterXp⌋ : ℤ) : ℚ)
      xpPerCharacter := xpPerCharacter
      averagePartyLevel := averagePartyLevel
      adjustmentFactor := adjustmentFactor }

/-- The all-zero record `calculateXp` returns when either list is empty. -/
def zeroResult : CalculationResult :=
  { totalPartyHitDice := 0, totalMonsterHitDice := 0, totalXp := 0,
    xpPerCharacter := 0, averagePartyLevel := 0, adjustmentFactor := 0 }

end XpCalculatorService

/-! ### Generic list lemmas used by the proofs -/

theorem foldl_add_sum {α : Type} (f : α → ℚ) :
    ∀ (l : List α) (a : ℚ), l.foldl (fun s x => s + f x) a = a + (l.map f).sum
  | [], a => by simp
  | x :: l, a => by
    rw [List.foldl_cons, foldl_add_sum f l (a + f x)]
    simp
    ring

theorem list_sum_div {α : Type} (f : α → ℚ) (c : ℚ) :
    ∀ l : List α, (l.map fun x => f x / c).sum = (l.map f).sum / c
  | [] => by simp
  | x :: l => by simp [list_sum_div f c l, add_div]

theorem list_sum_mul_right {α : Type} (f : α → ℚ) (c : ℚ) :
    ∀ l : List α, (l.map fun x => f x * c).sum = (l.map f).sum * c
  | [] => by simp
  | x :: l => by simp [list_sum_mul_right f c l, add_mul]

theorem enum_map_snd_comp {α β : Type} (l : List α) (f : α → β) :
    l.enum.map (fun p => f p.2) = l.map f := by
  have h : (fun p : ℕ × α => f p.2) = f ∘ Prod.snd := rfl
  rw [h, ← List.map_map, List.enum_map_snd]

theorem drop_cons_facts {α : Type} (d : α) :
    ∀ (arr : List α) (n : ℕ) (x : α) (l' : List α), arr.drop n = x :: l' →
      n < arr.length ∧ arr.getD n d = x ∧ arr.drop (n + 1) = l'
  | [], n, x, l', h => by simp at h
  | a :: t, 0, x, l', h => by
    simp only [List.drop_zero] at h
    cases h
    exact ⟨Nat.succ_pos _, rfl, by simp⟩
  | a :: t, n + 1, x, l', h => by
    have h' : t.drop n = x :: l' := by simpa using h
    obtain ⟨h1, h2, h3⟩ := drop_cons_facts d t n x l' h'
    refine ⟨?_, by simpa using h2, by simpa using h3⟩
    simp only [List.length_cons]
    omega

theorem enumFrom_map_ite_id {α : Type} (F : α → α) (idx : ℕ) :
    ∀ (l : List α) (n : ℕ), idx < n →
      (List.enumFrom n l).map (fun p => if p.1 = idx then F p.2 else p.2) = l
  | [], n, _ => by simp
  | x :: l, n, h => by
    have hn : ¬ n = idx := by omega
    simp only [List.enumFrom_cons, List.map_cons, hn, if_false,
      enumFrom_map_ite_id F idx l (n + 1) (by omega)]

theorem enumFrom_map_ite_sum {α : Type} (d : α) (f : α → ℚ) (F : α → α) (idx : ℕ) :
    ∀ (l : List α) (n : ℕ), n ≤ idx → idx < n + l.length →
      (((List.enumFrom n l).map (fun p => if p.1 = idx then F p.2 else p.2)).map f).sum
        = (l.map f).sum + (f (F (l.getD (idx - n) d)) - f (l.getD (idx - n) d))
  | [], n, h1, h2 => by simp at h2; omega
  | x :: l, n, h1, h2 => by
    rcases Nat.eq_or_lt_of_le h1 with heq | hlt
    · subst heq
      simp only [List.enumFrom_cons, List.map_cons, if_pos rfl,
        enumFrom_map_ite_id F n l (n + 1) (by omega), Nat.sub_self,
        List.getD_cons_zero, List.sum_cons, eq_self_iff_true, if_true]
      ring
    · have hn : ¬ n = idx := by omega
      have hlen : idx < (n + 1) + l.length := by
        simp only [List.length_cons] at h2; omega
      have ih := enumFrom_map_ite_sum d f F idx l (n + 1) hlt hlen
      obtain ⟨k, hk⟩ : ∃ k, idx - n = k + 1 := ⟨idx - n - 1, by omega⟩
      have hk' : idx - (n + 1) = k := by omega
      simp only [List.enumFrom_cons, List.map_cons, hn, if_false, List.sum_cons, ih,
        hk, hk', List.getD_cons_succ]
      ring

theorem enumFrom_map_ite_getD {α : Type} (d : α) (F : α → α) (idx : ℕ) :
    ∀ (l : List α) (n j : ℕ),
      ((List.enumFrom n l).map (fun p => if p.1 = idx then F p.2 else p.2)).getD j d
        = if n + j = idx ∧ j < l.length then F (l.getD j d) else l.getD j d
  | [], n, j => by simp
  | x :: l, n, 0 => by
    by_cases h : n = idx <;>
      simp [List.enumFrom_cons, h]
  | x :: l, n, j + 1 => by
    have ih := enumFrom_map_ite_getD d F idx l (n + 1) j
    have hcond : ((n + 1) + j = idx ∧ j < l.length) ↔
        (n + (j + 1) = idx ∧ j + 1 < (x :: l).length) := by
      simp only [List.length_cons]; omega
    simp only [List.enumFrom_cons, List.map_cons, List.getD_cons_succ, ih]
    rw [if_congr hcond rfl rfl]

/-- Invariant of the `reduce` in part_001 lines 239-243: starting from an
in-range accumulator that is a first-strict minimum of the already scanned
prefix, the fold returns a first-strict minimum of the whole scanned range. -/
theorem lowest_fold_inv (arr : List HomePage.CharacterXp) :
    ∀ (l : List HomePage.CharacterXp) (n acc : ℕ),
      arr.drop n = l → acc < arr.length →
      (∀ j, j < n →
        (arr.getD acc HomePage.defaultCharacterXp).effectiveHitDice ≤
          (arr.getD j HomePage.defaultCharacterXp).effectiveHitDice) →
      (∀ j, j < acc →
        (arr.getD acc HomePage.defaultCharacterXp).effectiveHitDice <
          (arr.getD j HomePage.defaultCharacterXp).effectiveHitDice) →
      ∀ r, r = (List.enumFrom n l).foldl
          (fun lowestIdx p =>
            if p.2.effectiveHitDice <
                (arr.getD lowestIdx HomePage.defaultCharacterXp).effectiveHitDice
            then p.1 else lowestIdx) acc →
        r < arr.length ∧
        (∀ j, j < n + l.length →
          (arr.getD r HomePage.defaultCharacterXp).effectiveHitDice ≤
            (arr.getD j HomePage.defaultCharacterXp).effectiveHitDice) ∧
        (∀ j, j < r →
          (arr.getD r HomePage.defaultCharacterXp).effectiveHitDice <
            (arr.getD j HomePage.defaultCharacterXp).effectiveHitDice)
  | [], n, acc, _, hacc, hmin, hstrict, r, hr => by
    subst hr
    refine ⟨hacc, ?_, hstrict⟩
    intro j hj
    exact hmin j (by simpa using hj)
  | x :: l, n, acc, hdrop, hacc, hmin, hstrict, r, hr => by
    obtain ⟨hn, hx, hdrop'⟩ := drop_cons_facts HomePage.defaultCharacterXp arr n x l hdrop
    rw [List.enumFrom_cons, List.foldl_cons] at hr
    by_cases hcmp : x.effectiveHitDice <
        (arr.getD acc HomePage.defaultCharacterXp).effectiveHitDice
    · rw [if_pos hcmp] at hr
      have hxn : (arr.getD n HomePage.defaultCharacterXp).effectiveHitDice =
          x.effectiveHitDice := by rw [hx]
      have H := lowest_fold_inv arr l (n + 1) n hdrop' hn ?_ ?_ r hr
      · exact ⟨H.1, fun j hj => H.2.1 j (by simp only [List.length_cons] at hj; omega), H.2.2⟩
      · intro j hj
        rcases Nat.lt_succ_iff_lt_or_eq.mp hj with hj' | rfl
        · exact le_of_lt (by rw [hxn]; exact lt_of_lt_of_le hcmp (hmin j hj'))
        · exact le_refl _
      · intro j hj
        rw [hxn]
        exact lt_of_lt_of_le hcmp (hmin j hj)
    · rw [if_neg hcmp] at hr
      have hxn : (arr.getD n HomePage.defaultCharacterXp).effectiveHitDice =
          x.effectiveHitDice := by rw [hx]
      have H := lowest_fold_inv arr l (n + 1) acc hdrop' hacc ?_ hstrict r hr
      · exact ⟨H.1, fun j hj => H.2.1 j (by simp only [List.length_cons] at hj; omega), H.2.2⟩
      intro j hj
      rcases Nat.lt_succ_iff_lt_or_eq.mp hj with hj' | rfl
      · exact hmin j hj'
      · rw [hxn]; exact le_of_not_lt hcmp

/-- Specification of `HomePage.lowestLevelCharIndex`: for a non-empty list it
returns an in-range index holding a minimal effective-hit-dice entry, and
every earlier index holds a strictly larger one (first index wins ties). -/
theorem lowestLevelCharIndex_spec (arr : List HomePage.CharacterXp) (h : arr ≠ []) :
    HomePage.lowestLevelCharIndex arr < arr.length ∧
    (∀ j, j < arr.length →
      (arr.getD (HomePage.lowestLevelCharIndex arr) HomePage.defaultCharacterXp).effectiveHitDice ≤
        (arr.getD j HomePage.defaultCharacterXp).effectiveHitDice) ∧
    (∀ j, j < HomePage.lowestLevelCharIndex arr →
      (arr.getD (HomePage.lowestLevelCharIndex arr) HomePage.defaultCharacterXp).effectiveHitDice <
        (arr.getD j HomePage.defaultCharacterXp).effectiveHitDice) := by
  have h0 : arr.drop 0 = arr := List.drop_zero arr
  have hlen : 0 < arr.length := List.length_pos.mpr h
  have hmain := lowest_fold_inv arr arr 0 0 h0 hlen
    (fun j hj => absurd hj (Nat.not_lt_zero j))
    (fun j hj => absurd hj (Nat.not_lt_zero j))
    (HomePage.lowestLevelCharIndex arr) rfl
  simpa using hmain

namespace HomePage

/-- `calculateTotalXp` as a mapped sum. -/
theorem calculateTotalXp_eq (monsters : List Monster) :
    calculateTotalXp monsters =
      (monsters.map fun m => m.effectiveHitDice * (m.count : ℚ) * 100).sum := by
  rw [calculateTotalXp,
    foldl_add_sum (fun m : Monster => m.effectiveHitDice * (m.count : ℚ) * 100), zero_add]

/-- Against a monster of non-negative effective hit dice the adjustment
factor lies in `[0, 1]`, whatever the character's effective hit dice. -/
theorem adjustmentFactor_bounds (characterHD monsterHD : ℚ) (hm : 0 ≤ monsterHD) :
    0 ≤ calculateAdjustmentFactor characterHD monsterHD ∧
      calculateAdjustmentFactor characterHD monsterHD ≤ 1 := by
  rw [calculateAdjustmentFactor]
  by_cases h : characterHD ≤ monsterHD
  · rw [if_pos h]; exact ⟨zero_le_one, le_refl 1⟩
  · rw [if_neg h]
    push_neg at h
    have hc : 0 < characterHD := lt_of_le_of_lt hm h
    exact ⟨div_nonneg hm (le_of_lt hc), (div_le_one hc).mpr (le_of_lt h)⟩

/-- The adjusted-XP column of a character's monster contributions. -/
theorem contributions_map_adjustedXp (numCharacters : ℕ) (monsters : List Monster)
    (char : Character) :
    (characterMonsterContributions numCharacters monsters char).map
        (fun c => c.adjustedXp) =
      monsters.map fun m =>
        m.effectiveHitDice * (m.count : ℚ) * 100 / (numCharacters : ℚ) *
          calculateAdjustmentFactor char.effectiveHitDice m.effectiveHitDice := by
  rw [characterMonsterContributions, List.map_map]
  rfl

/-- A character's stored adjusted XP is the floor of its summed contributions. -/
theorem characterXpEntry_adjustedXp (numCharacters : ℕ) (monsters : List Monster)
    (xpPerCharacter : ℚ) (char : Character) :
    (characterXpEntry numCharacters monsters xpPerCharacter char).adjustedXp =
      ((⌊((characterMonsterContributions numCharacters monsters char).map
          (fun c => c.adjustedXp)).sum⌋ : ℤ) : ℚ) := by
  rw [characterXpEntry,
    foldl_add_sum (fun c : MonsterContribution => c.adjustedXp), zero_add]

/-- The entry keeps the character's effective hit dice. -/
theorem characterXpEntry_effectiveHitDice (numCharacters : ℕ) (monsters : List Monster)
    (xpPerCharacter : ℚ) (char : Character) :
    (characterXpEntry numCharacters monsters xpPerCharacter char).effectiveHitDice =
      char.effectiveHitDice := rfl

theorem processCharacters_length (data : List CharacterFormValue) :
    (processCharacters data).length = data.length := by
  rw [processCharacters, List.length_map, List.enum_length]

theorem processMonsters_length (data : List MonsterFormValue) :
    (processMonsters data).length = data.length := by
  rw [processMonsters, List.length_map, List.enum_length]

/-- Every processed monster's derived fields come from some form row. -/
theorem processMonsters_mem (data : List MonsterFormValue) (m : Monster)
    (hm : m ∈ processMonsters data) :
    ∃ mf ∈ data, m.effectiveHitDice =
        calculateEffectiveHitDice (mf.hitDice : ℚ) (mf.modifier : ℚ) ∧
      m.count = mf.count := by
  rw [processMonsters] at hm
  obtain ⟨p, hp, rfl⟩ := List.mem_map.mp hm
  obtain ⟨i, x⟩ := p
  obtain ⟨hi, hx⟩ := List.mem_enum hp
  exact ⟨x, hx ▸ List.getElem_mem hi, rfl, rfl⟩

/-- The `characterXp` field of `onSubmit` is the base list with the
remainder distributed. -/
theorem onSubmit_characterXp_eq (dataCharacters : List CharacterFormValue)
    (dataMonsters : List MonsterFormValue) :
    (onSubmit dataCharacters dataMonsters).characterXp =
      distributeRemainder (calculateTotalXp (processMonsters dataMonsters))
        (characterXpBase dataCharacters dataMonsters) := rfl

theorem onSubmit_totalXp_eq (dataCharacters : List CharacterFormValue)
    (dataMonsters : List MonsterFormValue) :
    (onSubmit dataCharacters dataMonsters).totalXp =
      calculateTotalXp (processMonsters dataMonsters) := rfl

theorem onSubmitRemainder_eq (dataCharacters : List CharacterFormValue)
    (dataMonsters : List MonsterFormValue) :
    onSubmitRemainder dataCharacters dataMonsters =
      calculateTotalXp (processMonsters dataMonsters) -
        ((characterXpBase dataCharacters dataMonsters).map
          (fun c => c.adjustedXp)).sum := by
  rw [onSubmitRemainder, foldl_add_sum (fun c : CharacterXp => c.adjustedXp), zero_add]

theorem characterXpBase_length (dataCharacters : List CharacterFormValue)
    (dataMonsters : List MonsterFormValue) :
    (characterXpBase dataCharacters dataMonsters).length = dataCharacters.length := by
  rw [characterXpBase, List.length_map, processCharacters_length]

end HomePage

namespace HomePage

/-- Per-character bound: with non-negative monster effective hit dice and
counts, one character's summed adjusted contributions are at most its
unadjusted share `totalXp / numCharacters`. -/
theorem characterTotal_le (numCharacters : ℕ) (monsters : List Monster)
    (char : Character)
    (hm : ∀ m ∈ monsters, 0 ≤ m.effectiveHitDice ∧ 0 ≤ (m.count : ℚ)) :
    ((characterMonsterContributions numCharacters monsters char).map
      (fun c => c.adjustedXp)).sum ≤
      calculateTotalXp monsters / (numCharacters : ℚ) := by
  rw [contributions_map_adjustedXp, calculateTotalXp_eq, ← list_sum_div
    (fun m : Monster => m.effectiveHitDice * (m.count : ℚ) * 100) (numCharacters : ℚ)]
  apply List.sum_le_sum
  intro m hmem
  obtain ⟨he, hc⟩ := hm m hmem
  have hshare : 0 ≤ m.effectiveHitDice * (m.count : ℚ) * 100 / (numCharacters : ℚ) :=
    div_nonneg (mul_nonneg (mul_nonneg he hc) (by norm_num)) (Nat.cast_nonneg _)
  exact mul_le_of_le_one_right hshare
    (adjustmentFactor_bounds char.effectiveHitDice m.effectiveHitDice he).2

/-- Summed over all characters, the floored adjusted awards before the
remainder step never exceed the total XP. -/
theorem characterXpBase_sum_le (dataCharacters : List CharacterFormValue)
    (dataMonsters : List MonsterFormValue) (hcs : dataCharacters ≠ [])
    (hm : ∀ m ∈ processMonsters dataMonsters,
      0 ≤ m.effectiveHitDice ∧ 0 ≤ (m.count : ℚ)) :
    ((characterXpBase dataCharacters dataMonsters).map (fun c => c.adjustedXp)).sum ≤
      calculateTotalXp (processMonsters dataMonsters) := by
  have hNpos : 0 < (processCharacters dataCharacters).length := by
    rw [processCharacters_length]
    exact List.length_pos.mpr hcs
  have hNne : ((processCharacters dataCharacters).length : ℚ) ≠ 0 :=
    Nat.cast_ne_zero.mpr (Nat.pos_iff_ne_zero.mp hNpos)
  rw [characterXpBase, List.map_map]
  have hstep : ∀ ch ∈ processCharacters dataCharacters,
      ((fun c => c.adjustedXp) ∘
        characterXpEntry (processCharacters dataCharacters).length
          (processMonsters dataMonsters)
          (calculateTotalXp (processMonsters dataMonsters) /
            ((processCharacters dataCharacters).length : ℚ))) ch ≤
        calculateTotalXp (processMonsters dataMonsters) /
          ((processCharacters dataCharacters).length : ℚ) := by
    intro ch _
    have h1 := characterXpEntry_adjustedXp (processCharacters dataCharacters).length
      (processMonsters dataMonsters)
      (calculateTotalXp (processMonsters dataMonsters) /
        ((processCharacters dataCharacters).length : ℚ)) ch
    have h2 := Int.floor_le (((characterMonsterContributions
      (processCharacters dataCharacters).length (processMonsters dataMonsters) ch).map
        (fun c => c.adjustedXp)).sum)
    have h3 := characterTotal_le (processCharacters dataCharacters).length
      (processMonsters dataMonsters) ch hm
    calc ((fun c => c.adjustedXp) ∘
        characterXpEntry (processCharacters dataCharacters).length
          (processMonsters dataMonsters)
          (calculateTotalXp (processMonsters dataMonsters) /
            ((processCharacters dataCharacters).length : ℚ))) ch
        = ((⌊((characterMonsterContributions (processCharacters dataCharacters).length
            (processMonsters dataMonsters) ch).map (fun c => c.adjustedXp)).sum⌋ : ℤ) : ℚ) := h1
      _ ≤ ((characterMonsterContributions (processCharacters dataCharacters).length
            (processMonsters dataMonsters) ch).map (fun c => c.adjustedXp)).sum := h2
      _ ≤ calculateTotalXp (processMonsters dataMonsters) /
            ((processCharacters dataCharacters).length : ℚ) := h3
  calc ((processCharacters dataCharacters).map ((fun c => c.adjustedXp) ∘
        characterXpEntry (processCharacters dataCharacters).length
          (processMonsters dataMonsters)
          (calculateTotalXp (processMonsters dataMonsters) /
            ((processCharacters dataCharacters).length : ℚ)))).sum
      ≤ ((processCharacters dataCharacters).map (fun _ =>
          calculateTotalXp (processMonsters dataMonsters) /
            ((processCharacters dataCharacters).length : ℚ))).sum :=
        List.sum_le_sum hstep
    _ = calculateTotalXp (processMonsters dataMonsters) := by
        rw [List.map_const', List.sum_replicate, nsmul_eq_mul,
          mul_div_cancel₀ _ hNne]

/-- The two validity hypotheses on the input rows transfer to the processed
monster records. -/
theorem processMonsters_valid (dataMonsters : List MonsterFormValue)
    (hm : ∀ mf ∈ dataMonsters,
      0 ≤ calculateEffectiveHitDice (mf.hitDice : ℚ) (mf.modifier : ℚ) ∧ 1 ≤ mf.count) :
    ∀ m ∈ processMonsters dataMonsters, 0 ≤ m.effectiveHitDice ∧ 0 ≤ (m.count : ℚ) := by
  intro m hmem
  obtain ⟨mf, hmf, he, hc⟩ := processMonsters_mem dataMonsters m hmem
  obtain ⟨h1, h2⟩ := hm mf hmf
  refine ⟨he ▸ h1, ?_⟩
  rw [hc]
  exact_mod_cast le_trans zero_le_one h2

end HomePage

namespace HomePage

theorem processMonsters_map_xp (dataMonsters : List MonsterFormValue) :
    (processMonsters dataMonsters).map
        (fun m => m.effectiveHitDice * (m.count : ℚ) * 100) =
      dataMonsters.map fun mf =>
        calculateEffectiveHitDice (mf.hitDice : ℚ) (mf.modifier : ℚ) * (mf.count : ℚ) * 100 := by
  rw [processMonsters, List.map_map]
  exact enum_map_snd_comp dataMonsters fun mf =>
    calculateEffectiveHitDice (mf.hitDice : ℚ) (mf.modifier : ℚ) * (mf.count : ℚ) * 100

/-- `totalXp` is exactly the summed effective monster hit dice times 100;
no adjustment factor enters the total. -/
theorem totalXp_eq_base_rate (dataCharacters : List CharacterFormValue)
    (dataMonsters : List MonsterFormValue) :
    (onSubmit dataCharacters dataMonsters).totalXp =
      (dataMonsters.map fun mf =>
        calculateEffectiveHitDice (mf.hitDice : ℚ) (mf.modifier : ℚ) * (mf.count : ℚ)).sum * 100 := by
  rw [onSubmit_totalXp_eq, calculateTotalXp_eq, processMonsters_map_xp]
  exact list_sum_mul_right
    (fun mf : MonsterFormValue =>
      calculateEffectiveHitDice (mf.hitDice : ℚ) (mf.modifier : ℚ) * (mf.count : ℚ))
    100 dataMonsters

end HomePage

/-! ### The claims -/

/-- Claim C8: for every hit-dice value and modifier, `calculateEffectiveHitDice`
returns exactly `hitDice + modifier * 0.25` with no error condition; in
particular a zero modifier leaves the hit dice unchanged.  The Angular
service computes the identical value. -/
theorem claim8_effective_hit_dice_formula :
    (∀ hitDice modifier : ℚ,
      HomePage.calculateEffectiveHitDice hitDice modifier = hitDice + modifier * 0.25) ∧
    (∀ hitDice : ℚ, HomePage.calculateEffectiveHitDice hitDice 0 = hitDice) ∧
    (∀ hitDice modifier : ℚ,
      XpCalculatorService.calculateEffectiveHitDice hitDice modifier =
        HomePage.calculateEffectiveHitDice hitDice modifier) := by
  refine ⟨fun hd m => ?_, fun hd => ?_, fun hd m => ?_⟩
  · rw [HomePage.calculateEffectiveHitDice]
    norm_num
  · rw [HomePage.calculateEffectiveHitDice]
    ring
  · rw [XpCalculatorService.calculateEffectiveHitDice,
      XpCalculatorService.MODIFIER_FACTOR, HomePage.calculateEffectiveHitDice]

/-- Claim C4: for positive character and monster effective hit dice the
adjustment factor is 1 when the monster is at or above the character's
level, is `min 1 (monsterHD / characterHD)` otherwise, and always lies in
the half-open interval `(0, 1]`. -/
theorem claim4_adjustment_factor (characterHD monsterHD : ℚ)
    (hc : 0 < characterHD) (hm : 0 < monsterHD) :
    (characterHD ≤ monsterHD →
      HomePage.calculateAdjustmentFactor characterHD monsterHD = 1) ∧
    (monsterHD < characterHD →
      HomePage.calculateAdjustmentFactor characterHD monsterHD =
        min 1 (monsterHD / characterHD)) ∧
    0 < HomePage.calculateAdjustmentFactor characterHD monsterHD ∧
    HomePage.calculateAdjustmentFactor characterHD monsterHD ≤ 1 := by
  refine ⟨fun h => ?_, fun h => ?_, ?_, ?_⟩
  · rw [HomePage.calculateAdjustmentFactor, if_pos h]
  · rw [HomePage.calculateAdjustmentFactor, if_neg (not_le.mpr h),
      min_eq_right ((div_le_one hc).mpr (le_of_lt h))]
  · rw [HomePage.calculateAdjustmentFactor]
    by_cases h : characterHD ≤ monsterHD
    · rw [if_pos h]; exact zero_lt_one
    · rw [if_neg h]; exact div_pos hm hc
  · exact (HomePage.adjustmentFactor_bounds characterHD monsterHD (le_of_lt hm)).2

/-- Witness for C4 at character HD 4 against monster HD 1. -/
theorem claim4_adjustment_factor_witness :
    HomePage.calculateAdjustmentFactor 4 1 = min 1 ((1 : ℚ) / 4) ∧
    0 < HomePage.calculateAdjustmentFactor 4 1 ∧
    HomePage.calculateAdjustmentFactor 4 1 ≤ 1 :=
  ⟨(claim4_adjustment_factor 4 1 (by norm_num) (by norm_num)).2.1 (by norm_num),
    (claim4_adjustment_factor 4 1 (by norm_num) (by norm_num)).2.2.1,
    (claim4_adjustment_factor 4 1 (by norm_num) (by norm_num)).2.2.2⟩

/-- Counterexample to C7 as stated: with both effective hit dice negative
(reachable, because the form accepts arbitrarily negative modifiers) the
factor is 2, above 1, and it decreases as the monster level rises from
-2 to -1 — so the bound and the monotonicity do not hold for all inputs. -/
theorem claim7_counterexample :
    HomePage.calculateAdjustmentFactor (-1) (-2) = 2 ∧
    ¬ HomePage.calculateAdjustmentFactor (-1) (-2) ≤ 1 ∧
    ((-2 : ℚ) ≤ -1 ∧
      ¬ HomePage.calculateAdjustmentFactor (-1) (-2) ≤
        HomePage.calculateAdjustmentFactor (-1) (-1)) := by
  norm_num [HomePage.calculateAdjustmentFactor]

/-- Claim C7, amended: the three algebraic properties hold once the
character-side argument is restricted to positive values: the factor is 1
on the diagonal, never exceeds 1, and is monotone non-decreasing in the
monster level for every fixed positive character level. -/
theorem claim7_amended_algebraic_properties :
    (∀ x : ℚ, 0 < x → HomePage.calculateAdjustmentFactor x x = 1) ∧
    (∀ x y : ℚ, 0 < x → HomePage.calculateAdjustmentFactor x y ≤ 1) ∧
    (∀ x y y' : ℚ, 0 < x → y ≤ y' →
      HomePage.calculateAdjustmentFactor x y ≤ HomePage.calculateAdjustmentFactor x y') := by
  refine ⟨fun x _ => ?_, fun x y hx => ?_, fun x y y' hx hyy => ?_⟩
  · rw [HomePage.calculateAdjustmentFactor, if_pos (le_refl x)]
  · rw [HomePage.calculateAdjustmentFactor]
    by_cases h : x ≤ y
    · rw [if_pos h]
    · rw [if_neg h]
      exact (div_le_one hx).mpr (le_of_lt (not_le.mp h))
  · rw [HomePage.calculateAdjustmentFactor, HomePage.calculateAdjustmentFactor]
    by_cases h1 : x ≤ y
    · rw [if_pos h1, if_pos (le_trans h1 hyy)]
    · rw [if_neg h1]
      by_cases h2 : x ≤ y'
      · rw [if_pos h2]
        exact (div_le_one hx).mpr (le_of_lt (not_le.mp h1))
      · rw [if_neg h2]
        exact div_le_div_of_nonneg_right hyy (le_of_lt hx)

/-- Witness for the amended C7 at `x = 2`. -/
theorem claim7_amended_witness :
    HomePage.calculateAdjustmentFactor 2 2 = 1 ∧
    HomePage.calculateAdjustmentFactor 2 1 ≤ 1 ∧
    HomePage.calculateAdjustmentFactor 2 1 ≤ HomePage.calculateAdjustmentFactor 2 3 :=
  ⟨claim7_amended_algebraic_properties.1 2 (by norm_num),
    claim7_amended_algebraic_properties.2.1 2 1 (by norm_num),
    claim7_amended_algebraic_properties.2.2 2 1 3 (by norm_num) (by norm_num)⟩

/-- Claim C3: for non-empty inputs, `totalXp` equals the sum over monster
groups of effective hit dice times count, all times the fixed 100 XP base
rate, with no adjustment factor applied to the total. -/
theorem claim3_totalXp_base_rate (dataCharacters : List HomePage.CharacterFormValue)
    (dataMonsters : List HomePage.MonsterFormValue)
    (_hcs : dataCharacters ≠ []) (_hms : dataMonsters ≠ []) :
    (HomePage.onSubmit dataCharacters dataMonsters).totalXp =
      (dataMonsters.map fun mf =>
        HomePage.calculateEffectiveHitDice (mf.hitDice : ℚ) (mf.modifier : ℚ) *
          (mf.count : ℚ)).sum * 100 :=
  HomePage.totalXp_eq_base_rate dataCharacters dataMonsters

/-- Witness for C3: one level-1 character against three `2+1` monsters. -/
theorem claim3_totalXp_base_rate_witness :
    (HomePage.onSubmit [⟨"", 1, 0⟩] [⟨"", 2, 1, 3⟩]).totalXp =
      (([⟨"", 2, 1, 3⟩] : List HomePage.MonsterFormValue).map fun mf =>
        HomePage.calculateEffectiveHitDice (mf.hitDice : ℚ) (mf.modifier : ℚ) *
          (mf.count : ℚ)).sum * 100 :=
  claim3_totalXp_base_rate [⟨"", 1, 0⟩] [⟨"", 2, 1, 3⟩] (by simp) (by simp)

/-- Claim C9: appending a saved calculation to the store and reloading it
restores the characters, monsters and stored result exactly; the result
field is copied from the snapshot, not recomputed. -/
theorem claim9_round_trip (saved : List HomePage.SavedCalculation)
    (savedCalc : HomePage.SavedCalculation) :
    (HomePage.saveCalculation saved savedCalc).getLast? = some savedCalc ∧
    (HomePage.loadCalculation savedCalc).characters = savedCalc.characters ∧
    (HomePage.loadCalculation savedCalc).monsters = savedCalc.monsters ∧
    (HomePage.loadCalculation savedCalc).result = savedCalc.result :=
  ⟨List.getLast?_concat saved, rfl, rfl, rfl⟩

/-- Counterexample to C10 as stated: a single level-1 character against one
monster with hit dice 1 and modifier -6 (accepted by the form schema, whose
modifier field is unbounded).  The monster's effective hit dice are -1/2,
`totalXp = -50`, yet the character's floored adjusted XP is 25, so the
remainder is negative. -/
theorem claim10_counterexample :
    HomePage.calculatorSchemaIssues [⟨"", 1, 0⟩] [⟨"", 1, -6, 1⟩] = [] ∧
    HomePage.onSubmitRemainder [⟨"", 1, 0⟩] [⟨"", 1, -6, 1⟩] = -75 ∧
    HomePage.onSubmitRemainder [⟨"", 1, 0⟩] [⟨"", 1, -6, 1⟩] < 0 := by
  norm_num [HomePage.calculatorSchemaIssues, HomePage.characterSchemaIssues,
    HomePage.monsterSchemaIssues, HomePage.onSubmitRemainder, HomePage.characterXpBase,
    HomePage.processCharacters, HomePage.processMonsters, HomePage.calculateEffectiveHitDice,
    HomePage.calculateTotalXp, HomePage.characterXpEntry,
    HomePage.characterMonsterContributions, HomePage.calculateAdjustmentFactor,
    List.enum, List.enumFrom]

/-- Claim C10, amended: when every monster group's effective hit dice are
non-negative (in particular whenever modifiers never drag them below zero)
and the data-model invariants hold (count ≥ 1), the summed floored adjusted
XP never exceeds `totalXp`: the remainder is non-negative, so the
distribution step never subtracts XP. -/
theorem claim10_amended_remainder_nonneg
    (dataCharacters : List HomePage.CharacterFormValue)
    (dataMonsters : List HomePage.MonsterFormValue)
    (hcs : dataCharacters ≠ []) (_hms : dataMonsters ≠ [])
    (hm : ∀ mf ∈ dataMonsters,
      0 ≤ HomePage.calculateEffectiveHitDice (mf.hitDice : ℚ) (mf.modifier : ℚ) ∧
        1 ≤ mf.count) :
    0 ≤ HomePage.onSubmitRemainder dataCharacters dataMonsters := by
  rw [HomePage.onSubmitRemainder_eq]
  have h := HomePage.characterXpBase_sum_le dataCharacters dataMonsters hcs
    (HomePage.processMonsters_valid dataMonsters hm)
  linarith

/-- Witness for the amended C10: two characters of hit dice 2 against two
monsters of hit dice 3. -/
theorem claim10_amended_witness :
    0 ≤ HomePage.onSubmitRemainder [⟨"", 2, 0⟩] [⟨"", 3, 0, 2⟩] :=
  claim10_amended_remainder_nonneg [⟨"", 2, 0⟩] [⟨"", 3, 0, 2⟩]
    (by simp) (by simp)
    (by
      intro mf hmf
      simp only [List.mem_singleton] at hmf
      subst hmf
      constructor
      · norm_num [HomePage.calculateEffectiveHitDice]
      · norm_num)

/-- Counterexample to C1 as stated: one level-1 character against one
monster with hit dice 1 and modifier -8 (accepted by the form validation).
The monster's effective hit dice are -1, `totalXp = -100`, but the awarded
XP sums to 100: the negative remainder is not distributed, so the awards do
not sum to `totalXp`. -/
theorem claim1_counterexample :
    HomePage.calculatorSchemaIssues [⟨"", 1, 0⟩] [⟨"", 1, -8, 1⟩] = [] ∧
    ((HomePage.onSubmit [⟨"", 1, 0⟩] [⟨"", 1, -8, 1⟩]).characterXp.map
      (fun c => c.adjustedXp)).sum = 100 ∧
    (HomePage.onSubmit [⟨"", 1, 0⟩] [⟨"", 1, -8, 1⟩]).totalXp = -100 ∧
    ((HomePage.onSubmit [⟨"", 1, 0⟩] [⟨"", 1, -8, 1⟩]).characterXp.map
      (fun c => c.adjustedXp)).sum ≠
      (HomePage.onSubmit [⟨"", 1, 0⟩] [⟨"", 1, -8, 1⟩]).totalXp := by
  norm_num [HomePage.calculatorSchemaIssues, HomePage.characterSchemaIssues,
    HomePage.monsterSchemaIssues, HomePage.onSubmit, HomePage.processCharacters,
    HomePage.processMonsters, HomePage.calculateEffectiveHitDice, HomePage.calculateTotalXp,
    HomePage.characterXpEntry, HomePage.characterMonsterContributions,
    HomePage.calculateAdjustmentFactor, HomePage.distributeRemainder,
    HomePage.lowestLevelCharIndex, HomePage.defaultCharacterXp, List.enum, List.enumFrom]

/-- Claim C1, amended: when every monster group's effective hit dice are
non-negative and the data-model invariants hold (count ≥ 1), the
per-character awards after remainder distribution sum exactly to `totalXp`,
which is the total effective monster hit dice times 100. -/
theorem claim1_amended_awards_sum_to_totalXp
    (dataCharacters : List HomePage.CharacterFormValue)
    (dataMonsters : List HomePage.MonsterFormValue)
    (hcs : dataCharacters ≠ []) (_hms : dataMonsters ≠ [])
    (hm : ∀ mf ∈ dataMonsters,
      0 ≤ HomePage.calculateEffectiveHitDice (mf.hitDice : ℚ) (mf.modifier : ℚ) ∧
        1 ≤ mf.count) :
    ((HomePage.onSubmit dataCharacters dataMonsters).characterXp.map
        (fun c => c.adjustedXp)).sum =
      (HomePage.onSubmit dataCharacters dataMonsters).totalXp ∧
    (HomePage.onSubmit dataCharacters dataMonsters).totalXp =
      (dataMonsters.map fun mf =>
        HomePage.calculateEffectiveHitDice (mf.hitDice : ℚ) (mf.modifier : ℚ) *
          (mf.count : ℚ)).sum * 100 := by
  refine ⟨?_, HomePage.totalXp_eq_base_rate dataCharacters dataMonsters⟩
  rw [HomePage.onSubmit_characterXp_eq, HomePage.onSubmit_totalXp_eq]
  have hBne : HomePage.characterXpBase dataCharacters dataMonsters ≠ [] := by
    rw [← List.length_pos, HomePage.characterXpBase_length]
    exact List.length_pos.mpr hcs
  have hBlen : 0 < (HomePage.characterXpBase dataCharacters dataMonsters).length :=
    List.length_pos.mpr hBne
  have hBsum := HomePage.characterXpBase_sum_le dataCharacters dataMonsters hcs
    (HomePage.processMonsters_valid dataMonsters hm)
  simp only [HomePage.distributeRemainder,
    foldl_add_sum (fun c : HomePage.CharacterXp => c.adjustedXp), zero_add]
  by_cases hpos : 0 < HomePage.calculateTotalXp (HomePage.processMonsters dataMonsters) -
      ((HomePage.characterXpBase dataCharacters dataMonsters).map
        (fun c => c.adjustedXp)).sum
  · rw [if_pos ⟨hpos, hBlen⟩]
    have hidx : HomePage.lowestLevelCharIndex
        (HomePage.characterXpBase dataCharacters dataMonsters) <
        0 + (HomePage.characterXpBase dataCharacters dataMonsters).length := by
      simpa using (lowestLevelCharIndex_spec
        (HomePage.characterXpBase dataCharacters dataMonsters) hBne).1
    have henum : (HomePage.characterXpBase dataCharacters dataMonsters).enum =
        List.enumFrom 0 (HomePage.characterXpBase dataCharacters dataMonsters) := rfl
    rw [henum, enumFrom_map_ite_sum HomePage.defaultCharacterXp
      (fun c => c.adjustedXp)
      (fun c => { c with adjustedXp := c.adjustedXp +
        (HomePage.calculateTotalXp (HomePage.processMonsters dataMonsters) -
          ((HomePage.characterXpBase dataCharacters dataMonsters).map
            (fun c => c.adjustedXp)).sum) })
      (HomePage.lowestLevelCharIndex (HomePage.characterXpBase dataCharacters dataMonsters))
      (HomePage.characterXpBase dataCharacters dataMonsters) 0 (Nat.zero_le _) hidx]
    simp only [Nat.sub_zero]
    ring
  · rw [if_neg fun hcontra => hpos hcontra.1]
    linarith

/-- Witness for the amended C1: the spec's first example, one 4-HD character
against one 4-HD monster. -/
theorem claim1_amended_witness :
    ((HomePage.onSubmit [⟨"", 4, 0⟩] [⟨"", 4, 0, 1⟩]).characterXp.map
        (fun c => c.adjustedXp)).sum =
      (HomePage.onSubmit [⟨"", 4, 0⟩] [⟨"", 4, 0, 1⟩]).totalXp ∧
    (HomePage.onSubmit [⟨"", 4, 0⟩] [⟨"", 4, 0, 1⟩]).totalXp =
      (([⟨"", 4, 0, 1⟩] : List HomePage.MonsterFormValue).map fun mf =>
        HomePage.calculateEffectiveHitDice (mf.hitDice : ℚ) (mf.modifier : ℚ) *
          (mf.count : ℚ)).sum * 100 :=
  claim1_amended_awards_sum_to_totalXp [⟨"", 4, 0⟩] [⟨"", 4, 0, 1⟩] (by simp) (by simp)
    (by
      intro mf hmf
      simp only [List.mem_singleton] at hmf
      subst hmf
      exact ⟨by norm_num [HomePage.calculateEffectiveHitDice], by norm_num⟩)

/-- Claim C5: whenever the flooring leaves a positive remainder, the whole
remainder is added to exactly one entry: the one at the first index holding
the minimal effective hit dice (strictly smaller than every earlier entry,
no larger than every entry); all other entries are unchanged. -/
theorem claim5_remainder_to_first_lowest
    (dataCharacters : List HomePage.CharacterFormValue)
    (dataMonsters : List HomePage.MonsterFormValue)
    (hcs : dataCharacters ≠ [])
    (hr : 0 < HomePage.onSubmitRemainder dataCharacters dataMonsters) :
    HomePage.lowestLevelCharIndex (HomePage.characterXpBase dataCharacters dataMonsters) <
      (HomePage.characterXpBase dataCharacters dataMonsters).length ∧
    (∀ j, j < (HomePage.characterXpBase dataCharacters dataMonsters).length →
      ((HomePage.characterXpBase dataCharacters dataMonsters).getD
          (HomePage.lowestLevelCharIndex
            (HomePage.characterXpBase dataCharacters dataMonsters))
          HomePage.defaultCharacterXp).effectiveHitDice ≤
        ((HomePage.characterXpBase dataCharacters dataMonsters).getD j
          HomePage.defaultCharacterXp).effectiveHitDice) ∧
    (∀ j, j < HomePage.lowestLevelCharIndex
        (HomePage.characterXpBase dataCharacters dataMonsters) →
      ((HomePage.characterXpBase dataCharacters dataMonsters).getD
          (HomePage.lowestLevelCharIndex
            (HomePage.characterXpBase dataCharacters dataMonsters))
          HomePage.defaultCharacterXp).effectiveHitDice <
        ((HomePage.characterXpBase dataCharacters dataMonsters).getD j
          HomePage.defaultCharacterXp).effectiveHitDice) ∧
    (HomePage.onSubmit dataCharacters dataMonsters).characterXp.getD
        (HomePage.lowestLevelCharIndex
          (HomePage.characterXpBase dataCharacters dataMonsters))
        HomePage.defaultCharacterXp =
      { (HomePage.characterXpBase dataCharacters dataMonsters).getD
          (HomePage.lowestLevelCharIndex
            (HomePage.characterXpBase dataCharacters dataMonsters))
          HomePage.defaultCharacterXp with
        adjustedXp :=
          ((HomePage.characterXpBase dataCharacters dataMonsters).getD
            (HomePage.lowestLevelCharIndex
              (HomePage.characterXpBase dataCharacters dataMonsters))
            HomePage.defaultCharacterXp).adjustedXp +
          HomePage.onSubmitRemainder dataCharacters dataMonsters } ∧
    (∀ j, j ≠ HomePage.lowestLevelCharIndex
        (HomePage.characterXpBase dataCharacters dataMonsters) →
      (HomePage.onSubmit dataCharacters dataMonsters).characterXp.getD j
          HomePage.defaultCharacterXp =
        (HomePage.characterXpBase dataCharacters dataMonsters).getD j
          HomePage.defaultCharacterXp) := by
  have hBne : HomePage.characterXpBase dataCharacters dataMonsters ≠ [] := by
    rw [← List.length_pos, HomePage.characterXpBase_length]
    exact List.length_pos.mpr hcs
  obtain ⟨hlt, hmin, hstrict⟩ :=
    lowestLevelCharIndex_spec (HomePage.characterXpBase dataCharacters dataMonsters) hBne
  have hr' : 0 < HomePage.calculateTotalXp (HomePage.processMonsters dataMonsters) -
      ((HomePage.characterXpBase dataCharacters dataMonsters).map
        (fun c => c.adjustedXp)).sum := by
    rw [HomePage.onSubmitRemainder_eq] at hr
    exact hr
  have hBlen : 0 < (HomePage.characterXpBase dataCharacters dataMonsters).length :=
    List.length_pos.mpr hBne
  refine ⟨hlt, hmin, hstrict, ?_, ?_⟩
  all_goals
    rw [HomePage.onSubmit_characterXp_eq]
    simp only [HomePage.distributeRemainder,
      foldl_add_sum (fun c : HomePage.CharacterXp => c.adjustedXp), zero_add]
    rw [if_pos ⟨hr', hBlen⟩]
    have henum : (HomePage.characterXpBase dataCharacters dataMonsters).enum =
        List.enumFrom 0 (HomePage.characterXpBase dataCharacters dataMonsters) := rfl
  · rw [henum, enumFrom_map_ite_getD HomePage.defaultCharacterXp
      (fun c => { c with adjustedXp := c.adjustedXp +
        (HomePage.calculateTotalXp (HomePage.processMonsters dataMonsters) -
          ((HomePage.characterXpBase dataCharacters dataMonsters).map
            (fun c => c.adjustedXp)).sum) })
      (HomePage.lowestLevelCharIndex (HomePage.characterXpBase dataCharacters dataMonsters))
      (HomePage.characterXpBase dataCharacters dataMonsters) 0
      (HomePage.lowestLevelCharIndex (HomePage.characterXpBase dataCharacters dataMonsters))]
    rw [if_pos ⟨Nat.zero_add _, hlt⟩, HomePage.onSubmitRemainder_eq]
  · intro j hj
    rw [henum, enumFrom_map_ite_getD HomePage.defaultCharacterXp
      (fun c => { c with adjustedXp := c.adjustedXp +
        (HomePage.calculateTotalXp (HomePage.processMonsters dataMonsters) -
          ((HomePage.characterXpBase dataCharacters dataMonsters).map
            (fun c => c.adjustedXp)).sum) })
      (HomePage.lowestLevelCharIndex (HomePage.characterXpBase dataCharacters dataMonsters))
      (HomePage.characterXpBase dataCharacters dataMonsters) 0 j]
    rw [if_neg]
    intro hcontra
    exact hj (by simpa using hcontra.1)

/-- Witness for C5: characters of hit dice 3 and 1 against one 1-HD monster
leave a remainder of 34, which lands on the second (1-HD) character. -/
theorem claim5_witness :
    0 < HomePage.onSubmitRemainder [⟨"", 3, 0⟩, ⟨"", 1, 0⟩] [⟨"", 1, 0, 1⟩] ∧
    ((HomePage.onSubmit [⟨"", 3, 0⟩, ⟨"", 1, 0⟩] [⟨"", 1, 0, 1⟩]).characterXp.getD
        (HomePage.lowestLevelCharIndex
          (HomePage.characterXpBase [⟨"", 3, 0⟩, ⟨"", 1, 0⟩] [⟨"", 1, 0, 1⟩]))
        HomePage.defaultCharacterXp).adjustedXp =
      ((HomePage.characterXpBase [⟨"", 3, 0⟩, ⟨"", 1, 0⟩] [⟨"", 1, 0, 1⟩]).getD
        (HomePage.lowestLevelCharIndex
          (HomePage.characterXpBase [⟨"", 3, 0⟩, ⟨"", 1, 0⟩] [⟨"", 1, 0, 1⟩]))
        HomePage.defaultCharacterXp).adjustedXp +
        HomePage.onSubmitRemainder [⟨"", 3, 0⟩, ⟨"", 1, 0⟩] [⟨"", 1, 0, 1⟩] := by
  have h : 0 < HomePage.onSubmitRemainder [⟨"", 3, 0⟩, ⟨"", 1, 0⟩] [⟨"", 1, 0, 1⟩] := by
    norm_num [HomePage.onSubmitRemainder, HomePage.characterXpBase,
      HomePage.processCharacters, HomePage.processMonsters,
      HomePage.calculateEffectiveHitDice, HomePage.calculateTotalXp,
      HomePage.characterXpEntry, HomePage.characterMonsterContributions,
      HomePage.calculateAdjustmentFactor, List.enum, List.enumFrom]
  exact ⟨h, congrArg HomePage.CharacterXp.adjustedXp
    ((claim5_remainder_to_first_lowest [⟨"", 3, 0⟩, ⟨"", 1, 0⟩] [⟨"", 1, 0, 1⟩]
      (by simp) h).2.2.2.1)⟩

/-- Claim C6: the spec's worked example — characters of hit dice 8 and 2,
one group of four 2-HD monsters — yields `totalXp = 800`, award 100 for the
8-HD character, award 700 for the 2-HD character, summing to 800. -/
theorem claim6_worked_example :
    (HomePage.onSubmit [⟨"", 8, 0⟩, ⟨"", 2, 0⟩] [⟨"", 2, 0, 4⟩]).totalXp = 800 ∧
    ((HomePage.onSubmit [⟨"", 8, 0⟩, ⟨"", 2, 0⟩] [⟨"", 2, 0, 4⟩]).characterXp.map
      (fun c => c.adjustedXp)) = [100, 700] ∧
    ((HomePage.onSubmit [⟨"", 8, 0⟩, ⟨"", 2, 0⟩] [⟨"", 2, 0, 4⟩]).characterXp.map
      (fun c => c.adjustedXp)).sum = 800 := by
  norm_num [HomePage.onSubmit, HomePage.processCharacters, HomePage.processMonsters,
    HomePage.calculateEffectiveHitDice, HomePage.calculateTotalXp,
    HomePage.calculateAdjustmentFactor, HomePage.characterXpEntry,
    HomePage.characterMonsterContributions, HomePage.lowestLevelCharIndex,
    HomePage.defaultCharacterXp, HomePage.distributeRemainder, List.enum, List.enumFrom]

/-- Counterexample to C2 as stated: both lists are non-empty, yet with a
negative hit-dice value (typable in the form, since only `0` is coerced to
`1` by the input handler) the schema rejects and no result is produced. -/
theorem claim2_counterexample :
    ([⟨"", -2, 0⟩] : List HomePage.CharacterFormValue) ≠ [] ∧
    ([⟨"", 1, 0, 1⟩] : List HomePage.MonsterFormValue) ≠ [] ∧
    HomePage.handleSubmit [⟨"", -2, 0⟩] [⟨"", 1, 0, 1⟩] = none := by
  refine ⟨by simp, by simp, ?_⟩
  norm_num [HomePage.handleSubmit, HomePage.calculatorSchemaIssues,
    HomePage.characterSchemaIssues, HomePage.monsterSchemaIssues]

/-- Claim C2, amended: an empty character list yields the issue naming the
character list and no result; an empty monster list yields the issue naming
the monster list and no result; and when both lists are non-empty *and*
every row satisfies the per-field schema bounds (hit dice ≥ 1, count ≥ 1),
a complete result is produced. -/
theorem claim2_amended_validation (characters : List HomePage.CharacterFormValue)
    (monsters : List HomePage.MonsterFormValue) :
    (characters = [] →
      "Add at least one character" ∈ HomePage.calculatorSchemaIssues characters monsters ∧
      HomePage.handleSubmit characters monsters = none) ∧
    (monsters = [] →
      "Add at least one monster" ∈ HomePage.calculatorSchemaIssues characters monsters ∧
      HomePage.handleSubmit characters monsters = none) ∧
    (characters ≠ [] → monsters ≠ [] →
      (∀ c ∈ characters, 1 ≤ c.hitDice) →
      (∀ m ∈ monsters, 1 ≤ m.hitDice ∧ 1 ≤ m.count) →
      HomePage.handleSubmit characters monsters =
        some (HomePage.onSubmit characters monsters)) := by
  refine ⟨?_, ?_, ?_⟩
  · rintro rfl
    constructor
    · simp [HomePage.calculatorSchemaIssues]
    · rw [HomePage.handleSubmit, if_neg]
      simp [HomePage.calculatorSchemaIssues]
  · rintro rfl
    constructor
    · simp [HomePage.calculatorSchemaIssues]
    · rw [HomePage.handleSubmit, if_neg]
      simp [HomePage.calculatorSchemaIssues]
  · intro hcs hms h1 h2
    have hcflat : (characters.map HomePage.characterSchemaIssues).flatten = [] := by
      rw [List.flatten_eq_nil_iff]
      intro l hl
      obtain ⟨c, hcmem, rfl⟩ := List.mem_map.mp hl
      rw [HomePage.characterSchemaIssues, if_neg (not_lt.mpr (h1 c hcmem))]
    have hmflat : (monsters.map HomePage.monsterSchemaIssues).flatten = [] := by
      rw [List.flatten_eq_nil_iff]
      intro l hl
      obtain ⟨m, hmmem, rfl⟩ := List.mem_map.mp hl
      rw [HomePage.monsterSchemaIssues, if_neg (not_lt.mpr (h2 m hmmem).1),
        if_neg (not_lt.mpr (h2 m hmmem).2), List.nil_append]
    have hclen : ¬ characters.length < 1 := by
      have := List.length_pos.mpr hcs
      omega
    have hmlen : ¬ monsters.length < 1 := by
      have := List.length_pos.mpr hms
      omega
    rw [HomePage.handleSubmit, if_pos]
    rw [HomePage.calculatorSchemaIssues, hcflat, hmflat, if_neg hclen, if_neg hmlen]
    simp

/-- Witness for the amended C2 at an empty character list. -/
theorem claim2_amended_witness :
    "Add at least one character" ∈
      HomePage.calculatorSchemaIssues [] [⟨"", 1, 0, 1⟩] ∧
    HomePage.handleSubmit [] [⟨"", 1, 0, 1⟩] = none :=
  (claim2_amended_validation [] [⟨"", 1, 0, 1⟩]).1 rfl
